import Mathlib

/-!
Verification of the Jobber python client core (OAuth token lifecycle manager,
GraphQL request executor, facade client) against its natural-language
specification.  The definitions below are a shallow embedding of the python
source in `src/jobber/`:

* `src/jobber/graphql.py` — `GraphQLExecutor` (response classification,
  rate-limit policy, `last_throttle_status`);
* `src/jobber/auth.py` — `TokenInfo`, `TokenManager` (load from the secret
  store, refresh, persist);
* `src/jobber/client.py` — `JobberClient` (facade with one reactive
  refresh-and-retry).

Machine conventions: clock instants are whole seconds modelled as `Int`
(python reads `time.time()` and immediately truncates with `int`); the float
constant `0.20` of the rate-limit policy is modelled as the exact rational
`1/5` (for every value reachable in the claims the float computation rounds
to the same result); python exceptions are modelled as explicit outcome
constructors, including the builtin `KeyError`, `IndexError` and
`ZeroDivisionError` that the source can let escape.
-/

/-- Throttle snapshot as found under `extensions.cost.throttleStatus` in a
parsed response body: a JSON object in which each of the three integer fields
may be absent (python reads them with `dict.get` and defaults).  Mirrors the
`throttle: dict[str, int]` argument of `GraphQLExecutor._check_rate_limit`. -/
structure ThrottleStatus where
  currentlyAvailable : Option Int
  maximumAvailable : Option Int
  restoreRate : Option Int
deriving Repr, DecidableEq

/-- One element of a GraphQL `errors` list; only its optional `message` field
is ever inspected by the source (`result['errors'][0].get('message', ...)`). -/
structure GQLErrorObj where
  message : Option String
deriving Repr, DecidableEq

/-- The `cost` object of the `extensions` section. -/
structure CostSection where
  throttleStatus : Option ThrottleStatus
deriving Repr, DecidableEq

/-- The `extensions` section of a parsed response body. -/
structure ExtensionsSection where
  cost : Option CostSection
deriving Repr, DecidableEq

/-- A parsed (JSON-decoded) GraphQL response body, restricted to the keys the
executor inspects: `extensions` (for the throttle snapshot), `errors`, and
`data`.  `D` is the type of the opaque `data` payload. -/
structure ResponseBody (D : Type) where
  extensions : Option ExtensionsSection
  errors : Option (List GQLErrorObj)
  data : Option D
deriving Repr, DecidableEq

/-- Persistent state of one `GraphQLExecutor` instance: its
`last_throttle_status` attribute (initialised to `None` in `__init__`). -/
structure ExecutorPersistentState where
  last_throttle_status : Option ThrottleStatus
deriving Repr, DecidableEq

/-- Fresh executor state, as built by `GraphQLExecutor.__init__`. -/
def initExecutorState : ExecutorPersistentState := ⟨none⟩

/-- Outcome of one `GraphQLExecutor.execute` call: either the returned
`data` value or the python exception the call raises.  `V` is the type of the
opaque `variables` argument.  `graphQLErrorRaised` records the payload of a
`GraphQLError` built in the `errors` branch (message, errors list, query, and
the `variables` entry of its context dict); `graphQLMissingData` records the
`GraphQLError` of the missing-`data` branch; `zeroDivisionError` and
`indexError` model the builtin exceptions that `_check_rate_limit` and the
`result['errors'][0]` subscript can let escape. -/
inductive ExecOutcome (V D : Type) where
  | ok (data : D)
  | authenticationError (statusCode : Nat)
  | networkError (msg : String)
  | rateLimitError (throttle : ThrottleStatus) (waitSeconds : ℚ)
  | graphQLErrorRaised (message : String) (errors : List GQLErrorObj)
      (query : String) (ctxVariables : Option V)
  | graphQLMissingData (message : String) (query : String)
  | zeroDivisionError
  | indexError
deriving Repr, DecidableEq

/-- Class constant `GraphQLExecutor.RATE_LIMIT_THRESHOLD = 0.20`, modelled as
the exact rational one fifth. -/
def RATE_LIMIT_THRESHOLD : ℚ := 1 / 5

/-- Embedding of `GraphQLExecutor._check_rate_limit` (graphql.py 165–189).
Returns `some e` when the python method raises `e`, `none` when it returns
normally.  Faithful points: `currentlyAvailable` defaults to `0`,
`maximumAvailable` to `10000`, `restoreRate` to `500`; the division
`(threshold - currently_available) / restore_rate` is evaluated before the
`raise`, so an effective restore rate of `0` raises `ZeroDivisionError`. -/
def checkRateLimit {V D : Type} (throttle : ThrottleStatus) :
    Option (ExecOutcome V D) :=
  let ca : Int := throttle.currentlyAvailable.getD 0
  let ma : Int := throttle.maximumAvailable.getD 10000
  let threshold : ℚ := RATE_LIMIT_THRESHOLD * (ma : ℚ)
  if (ca : ℚ) < threshold then
    let rr : Int := throttle.restoreRate.getD 500
    if rr = 0 then some .zeroDivisionError
    else some (.rateLimitError throttle ((threshold - (ca : ℚ)) / (rr : ℚ)))
  else none

/-- Extraction of the throttle snapshot from a parsed body, mirroring the
nested membership tests `'extensions' in result`, `'cost' in
result['extensions']`, `'throttleStatus' in cost` (graphql.py 125–127). -/
def extractThrottle {D : Type} (body : ResponseBody D) : Option ThrottleStatus :=
  match body.extensions with
  | none => none
  | some ext =>
    match ext.cost with
    | none => none
    | some c => c.throttleStatus

/-- Embedding of the GraphQL-error / missing-data classification at the end of
`GraphQLExecutor.execute` (graphql.py 131–149), reached only after the
rate-limit section did not raise.  An `errors` key whose list is empty makes
the python f-string subscript `result['errors'][0]` raise `IndexError`. -/
def classifyBody {V D : Type} (query : String) (vars : Option V)
    (body : ResponseBody D) : ExecOutcome V D :=
  match body.errors with
  | some [] => .indexError
  | some (e0 :: rest) =>
      .graphQLErrorRaised
        ("GraphQL query failed: " ++ e0.message.getD "Unknown error")
        (e0 :: rest) query vars
  | none =>
    match body.data with
    | none => .graphQLMissingData "Response missing data field" query
    | some d => .ok d

/-- Embedding of the body-processing part of `GraphQLExecutor.execute`
(graphql.py 124–149): store the throttle snapshot into
`last_throttle_status` when present, run the rate-limit check, then the
GraphQL-error and `data` classification.  Returns the updated executor state
together with the call outcome. -/
def processBody {V D : Type} (st : ExecutorPersistentState) (query : String)
    (vars : Option V) (body : ResponseBody D) :
    ExecutorPersistentState × ExecOutcome V D :=
  match extractThrottle body with
  | some ts =>
    let st' : ExecutorPersistentState := ⟨some ts⟩
    match checkRateLimit ts with
    | some e => (st', e)
    | none => (st', classifyBody query vars body)
  | none => (st, classifyBody query vars body)

/-- Transport-level result of the HTTP POST inside `GraphQLExecutor.execute`,
one constructor per branch the source distinguishes (graphql.py 82–122):
status 401, another non-2xx status, timeout, connection failure, a body that
is not JSON, or a parsed JSON body. -/
inductive HttpResult (D : Type) where
  | status401
  | httpStatus (code : Nat) (text : String)
  | timeout
  | connectionError (msg : String)
  | invalidJson (text : String)
  | parsed (body : ResponseBody D)
deriving Repr

/-- Embedding of `GraphQLExecutor.execute` (graphql.py 46–149) as a function
of the transport outcome: HTTP/transport classification first, then body
processing.  Returns the updated executor state and the call outcome. -/
def executorExecute {V D : Type} (st : ExecutorPersistentState) (query : String)
    (vars : Option V) (net : HttpResult D) :
    ExecutorPersistentState × ExecOutcome V D :=
  match net with
  | .status401 => (st, .authenticationError 401)
  | .httpStatus code text =>
      (st, .networkError ("HTTP " ++ toString code ++ ": " ++ text))
  | .timeout => (st, .networkError "Request timeout after 30 seconds")
  | .connectionError m => (st, .networkError ("Connection failed: " ++ m))
  | .invalidJson text => (st, .networkError ("Invalid JSON response: " ++ text))
  | .parsed body => processBody st query vars body

/-- Embedding of `GraphQLExecutor.get_throttle_status` (graphql.py 151–163):
returns the `last_throttle_status` attribute. -/
def executorGetThrottleStatus (st : ExecutorPersistentState) :
    Option ThrottleStatus :=
  st.last_throttle_status

/-- Embedding of the `TokenInfo` dataclass (auth.py 25–44): one OAuth token
pair with its absolute expiry instant (unix seconds). -/
structure TokenInfo where
  access_token : String
  refresh_token : String
  expires_at : Int
deriving Repr, DecidableEq

/-- Embedding of the `TokenInfo.is_expired` property (auth.py 32–35),
with the current clock passed explicitly: `time.time() >= self.expires_at`. -/
def TokenInfo.is_expired (t : TokenInfo) (now : Int) : Bool :=
  now ≥ t.expires_at

/-- Embedding of the `TokenInfo.expires_in_seconds` property (auth.py 37–40):
`max(0, int(self.expires_at - time.time()))`, with the clock passed
explicitly in whole seconds. -/
def TokenInfo.expires_in_seconds (t : TokenInfo) (now : Int) : Int :=
  max 0 (t.expires_at - now)

/-- Embedding of `TokenInfo.should_refresh` (auth.py 42–44):
`self.expires_in_seconds < buffer_seconds`. -/
def TokenInfo.should_refresh (t : TokenInfo) (now : Int)
    (buffer_seconds : Int) : Bool :=
  t.expires_in_seconds now < buffer_seconds

/-- Value of one python `int(s)` conversion restricted to ASCII decimal
strings: an optional sign followed by digits, with single underscores allowed
between digits, as python accepts (`int("1_0") == 10`); `none` models the
`ValueError` python raises otherwise.  Helper: digit run after the first
digit, `acc` the value read so far. -/
def pyDigitsAux (acc : Nat) : List Char → Option Nat
  | [] => some acc
  | '_' :: c :: rest =>
      if c.isDigit then pyDigitsAux (10 * acc + (c.toNat - 48)) rest else none
  | ['_'] => none
  | c :: rest =>
      if c.isDigit then pyDigitsAux (10 * acc + (c.toNat - 48)) rest else none

/-- Digit run of a python integer literal: nonempty, starts with a digit. -/
def pyDigits : List Char → Option Nat
  | [] => none
  | c :: rest =>
      if c.isDigit then pyDigitsAux (c.toNat - 48) rest else none

/-- Signed part of a python `int(s)` conversion. -/
def pySigned : List Char → Option Int
  | '+' :: rest => (pyDigits rest).map Int.ofNat
  | '-' :: rest => (pyDigits rest).map (fun n => -(n : Int))
  | rest => (pyDigits rest).map Int.ofNat

/-- Model of python `int(s)` on strings: surrounding ASCII whitespace is
ignored, then an optional sign and a digit run; `none` models `ValueError`. -/
def pyParseInt (s : String) : Option Int :=
  let ws : Char → Bool := fun c =>
    c = ' ' ∨ c = '\t' ∨ c = '\n' ∨ c = '\r' ∨ c = '\x0b' ∨ c = '\x0c'
  pySigned (((s.toList.dropWhile ws).reverse.dropWhile ws).reverse)

/-- Failure raised while loading or refreshing tokens, mirroring the
exception classes of `src/jobber/exceptions.py` that `TokenManager` raises,
plus the builtin `KeyError` that `_refresh_token` can let escape when the
token endpoint response lacks a required key. -/
inductive TokenFailure where
  | configurationError (msg : String)
  | authenticationError (msg : String)
  | keyError (key : String)
deriving Repr, DecidableEq

/-- Embedding of `TokenManager._load_from_doppler` (auth.py 159–213) as a
function of the secret values the store returned (the newline-split lines of
the doppler CLI output, one value per requested key): exactly three values
are required, the third must parse as an integer. -/
def loadFromDoppler (lines : List String) : Except TokenFailure TokenInfo :=
  match lines with
  | [access_token, refresh_token, expires_at] =>
    match pyParseInt expires_at with
    | none =>
        .error (.authenticationError
          ("Invalid JOBBER_TOKEN_EXPIRES_AT format: " ++ expires_at))
    | some n => .ok ⟨access_token, refresh_token, n⟩
  | _ =>
      .error (.configurationError
        ("Expected 3 tokens from Doppler, got " ++ toString lines.length ++
          ". Run jobber_auth.py to authenticate."))

/-- Success/failure of the three doppler writes `_save_to_doppler` performs,
in the dict insertion order of auth.py 308–312: access token, refresh token,
expiry. -/
structure DopplerWrites where
  accessOk : Bool
  refreshOk : Bool
  expiresOk : Bool
deriving Repr, DecidableEq

/-- Embedding of `TokenManager._save_to_doppler` (auth.py 301–332): the three
secrets are written one at a time and the first failing write raises
`AuthenticationError` naming the failed key; later writes are skipped. -/
def saveToDoppler (w : DopplerWrites) : Except TokenFailure Unit :=
  if w.accessOk = false then
    .error (.authenticationError "Failed to update JOBBER_ACCESS_TOKEN in Doppler")
  else if w.refreshOk = false then
    .error (.authenticationError "Failed to update JOBBER_REFRESH_TOKEN in Doppler")
  else if w.expiresOk = false then
    .error (.authenticationError "Failed to update JOBBER_TOKEN_EXPIRES_AT in Doppler")
  else .ok ()

/-- JSON body of a successful token-endpoint response, restricted to the keys
`_refresh_token` reads; each may be absent. -/
structure RefreshResp where
  access_token : Option String
  refresh_token : Option String
  expires_in : Option Int
deriving Repr, DecidableEq

/-- Outcome of the refresh POST as `_refresh_token` distinguishes it: either
a parsed JSON body, or any `requests.RequestException` (timeout, connection
failure, non-2xx status via `raise_for_status`, undecodable JSON). -/
inductive RefreshNet where
  | success (resp : RefreshResp)
  | requestException (msg : String)
deriving Repr, DecidableEq

/-- Embedding of `TokenManager._refresh_token` (auth.py 256–299), with the
clock and the network/store effects passed explicitly.  Returns the
`self._token` field after the call together with the call outcome.  Faithful
points: `data['expires_in']` and `data['access_token']` are plain subscripts,
so a response that omits either raises `KeyError` (not caught by the
`except requests.RequestException` clause) before `self._token` is assigned;
`data.get('refresh_token', self._token.refresh_token)` keeps the previous
refresh token when the response omits one; the doppler save runs after the
in-memory assignment and its `AuthenticationError` is not caught, so a failed
save leaves the newly minted token in memory. -/
def refreshTokenImpl (prev : TokenInfo) (now : Int) (net : RefreshNet)
    (w : DopplerWrites) : TokenInfo × Except TokenFailure Unit :=
  match net with
  | .requestException m =>
      (prev, .error (.authenticationError ("Token refresh failed: " ++ m)))
  | .success resp =>
    match resp.expires_in with
    | none => (prev, .error (.keyError "expires_in"))
    | some ei =>
      match resp.access_token with
      | none => (prev, .error (.keyError "access_token"))
      | some a =>
        let newTok : TokenInfo :=
          ⟨a, resp.refresh_token.getD prev.refresh_token, now + ei⟩
        match saveToDoppler w with
        | .error e => (newTok, .error e)
        | .ok _ => (newTok, .ok ())

/-- Persistent state of one `JobberClient` instance (client.py 31–41): the
`_executor` attribute, set to `None` in `__init__` and — as the embedding of
`execute_query` below makes explicit — never assigned afterwards (the
executors built inside `execute_query` are local variables). -/
structure JobberClientState where
  executorAttr : Option ExecutorPersistentState
deriving Repr, DecidableEq

/-- Client state as built by `JobberClient.__init__`: `self._executor = None`. -/
def jobberClientInit : JobberClientState := ⟨none⟩

/-- External behaviour one `execute_query` call can observe: the result of
`token_manager.get_token()`, the transport outcome of the first attempt as a
function of the token it is issued with, the result of
`token_manager.refresh_on_401()`, and the transport outcome of the second
attempt as a function of its token.  An `Except.error` on the manager side is
the message of the `AuthenticationError` the manager raises. -/
structure QueryEnv (D : Type) where
  getTokenResult : Except String String
  net1 : String → HttpResult D
  refreshResult : Except String String
  net2 : String → HttpResult D

/-- Result of one `JobberClient.execute_query` call: either the outcome of an
executor attempt, returned or propagated as-is, or an `AuthenticationError`
raised by the token manager itself (in `get_token` or `refresh_on_401`). -/
inductive QueryResult (V D : Type) where
  | executorOutcome (o : ExecOutcome V D)
  | managerAuthError (msg : String)
deriving Repr, DecidableEq

/-- Trace of one `execute_query` call: its result, how many times
`refresh_on_401` ran, the tokens used by the executor attempts in order, and
the client state after the call. -/
structure QueryTrace (V D : Type) where
  result : QueryResult V D
  refreshCalls : Nat
  attemptTokens : List String
  finalState : JobberClientState
deriving Repr

/-- Embedding of `JobberClient.execute_query` (client.py 73–115): get a
token, build a fresh executor, attempt once; only on `AuthenticationError`
call `refresh_on_401` and attempt exactly once more with a second fresh
executor, whose outcome is returned/propagated unchanged; every other first
attempt outcome is returned/propagated with no refresh.  `self._executor` is
never assigned, so the final client state is the input state. -/
def executeQueryModel {V D : Type} (query : String) (vars : Option V)
    (env : QueryEnv D) (st : JobberClientState) : QueryTrace V D :=
  match env.getTokenResult with
  | .error m =>
      ⟨.managerAuthError m, 0, [], st⟩
  | .ok tok1 =>
    let out1 : ExecOutcome V D :=
      (executorExecute initExecutorState query vars (env.net1 tok1)).2
    match out1 with
    | .authenticationError _ =>
      match env.refreshResult with
      | .error m => ⟨.managerAuthError m, 1, [tok1], st⟩
      | .ok tok2 =>
        let out2 : ExecOutcome V D :=
          (executorExecute initExecutorState query vars (env.net2 tok2)).2
        ⟨.executorOutcome out2, 1, [tok1, tok2], st⟩
    | o => ⟨.executorOutcome o, 0, [tok1], st⟩

/-- Embedding of `JobberClient.get_throttle_status` (client.py 117–136):
`None` when `self._executor is None`, otherwise the executor's last snapshot. -/
def clientGetThrottleStatus (st : JobberClientState) : Option ThrottleStatus :=
  match st.executorAttr with
  | none => none
  | some ex => executorGetThrottleStatus ex

/-- One `execute_query` invocation as the facade's callers see it: the query,
its variables, and the environment behaviour for that call. -/
structure QueryCall (V D : Type) where
  query : String
  vars : Option V
  env : QueryEnv D

/-- Sequence of `execute_query` calls against one `JobberClient`, threading
the client state. -/
def runQueries {V D : Type} (calls : List (QueryCall V D))
    (st : JobberClientState) : JobberClientState :=
  calls.foldl (fun s c => (executeQueryModel c.query c.vars c.env s).finalState) st

/-- C7: for every Token State and every current time, `expires_in_seconds`
equals `max(0, expires_at - now)` and is never negative, and
`should_refresh(buffer)` holds exactly when `expires_in_seconds < buffer`,
for every buffer including `0` and buffers larger than the remaining
lifetime. -/
theorem tokenInfo_derived_properties (t : TokenInfo) (now buffer : Int) :
    t.expires_in_seconds now = max 0 (t.expires_at - now) ∧
    0 ≤ t.expires_in_seconds now ∧
    (t.should_refresh now buffer = true ↔ t.expires_in_seconds now < buffer) := by
  refine ⟨rfl, le_max_left _ _, ?_⟩
  simp [TokenInfo.should_refresh]

/-- C2 counterexample: the snapshot `currentlyAvailable=0,
maximumAvailable=10000, restoreRate=0` is strictly below the threshold
`0.20 * 10000`, yet `_check_rate_limit` raises `ZeroDivisionError` (the
division `(threshold - currently_available) / restore_rate` is evaluated
before the `raise`), not `RateLimitError` — refuting the claimed
"raises `RateLimitError` if and only if `currentlyAvailable < threshold`". -/
theorem rate_limit_zero_restore_cex :
    checkRateLimit (V := Nat) (D := Nat) ⟨some 0, some 10000, some 0⟩ =
      some .zeroDivisionError ∧
    ((0 : Int) : ℚ) < RATE_LIMIT_THRESHOLD * (((10000 : Int) : ℚ)) := by
  constructor
  · simp only [checkRateLimit, Option.getD_some]
    norm_num [RATE_LIMIT_THRESHOLD]
  · norm_num [RATE_LIMIT_THRESHOLD]

/-- C2 (amended): for every throttle snapshot whose `currentlyAvailable` and
`maximumAvailable` are present and whose effective restore rate
(`restoreRate`, or 500 when omitted) is nonzero, `_check_rate_limit` raises
`RateLimitError` iff `currentlyAvailable < 0.20 * maximumAvailable`, and the
error then carries
`wait_seconds = (threshold - currentlyAvailable) / restoreRate` with the
restore rate defaulted to 500 when absent; with an effective restore rate of
zero and points below threshold, `ZeroDivisionError` is raised instead. -/
theorem rate_limit_policy {V D : Type} (t : ThrottleStatus) (ca ma : Int)
    (hca : t.currentlyAvailable = some ca) (hma : t.maximumAvailable = some ma)
    (hrr : t.restoreRate.getD 500 ≠ 0) :
    ((∃ w, checkRateLimit (V := V) (D := D) t = some (.rateLimitError t w)) ↔
        ((ca : ℚ) < RATE_LIMIT_THRESHOLD * (ma : ℚ))) ∧
    (((ca : ℚ) < RATE_LIMIT_THRESHOLD * (ma : ℚ)) →
      checkRateLimit (V := V) (D := D) t =
        some (.rateLimitError t
          ((RATE_LIMIT_THRESHOLD * (ma : ℚ) - (ca : ℚ)) /
            ((t.restoreRate.getD 500 : Int) : ℚ)))) := by
  by_cases h1 : (ca : ℚ) < RATE_LIMIT_THRESHOLD * (ma : ℚ)
  · have hck : checkRateLimit (V := V) (D := D) t =
        some (.rateLimitError t
          ((RATE_LIMIT_THRESHOLD * (ma : ℚ) - (ca : ℚ)) /
            ((t.restoreRate.getD 500 : Int) : ℚ))) := by
      simp only [checkRateLimit, hca, hma, Option.getD_some]
      rw [if_pos h1, if_neg hrr]
    exact ⟨⟨fun _ => h1, fun _ => ⟨_, hck⟩⟩, fun _ => hck⟩
  · have hck : checkRateLimit (V := V) (D := D) t = none := by
      simp only [checkRateLimit, hca, hma, Option.getD_some]
      rw [if_neg h1]
    refine ⟨⟨?_, fun h => absurd h h1⟩, fun h => absurd h h1⟩
    rintro ⟨w, hw⟩
    rw [hck] at hw
    cases hw

/-- C2 witness: at `currentlyAvailable=1000, maximumAvailable=10000,
restoreRate=500` a `RateLimitError` with `wait_seconds = 2` is raised, and at
`currentlyAvailable=5000` under the same ceiling no exception is raised. -/
theorem rate_limit_policy_witness :
    checkRateLimit (V := Nat) (D := Nat) ⟨some 1000, some 10000, some 500⟩ =
      some (.rateLimitError ⟨some 1000, some 10000, some 500⟩ 2) ∧
    checkRateLimit (V := Nat) (D := Nat) ⟨some 5000, some 10000, some 500⟩ =
      none := by
  constructor
  · have h := (rate_limit_policy (V := Nat) (D := Nat)
      (t := ⟨some 1000, some 10000, some 500⟩) 1000 10000 rfl rfl
      (by decide)).2 (by norm_num [RATE_LIMIT_THRESHOLD])
    norm_num [RATE_LIMIT_THRESHOLD] at h
    exact h
  · simp only [checkRateLimit, Option.getD_some]
    norm_num [RATE_LIMIT_THRESHOLD]

/-- C3 counterexample: a parsed body carrying both the throttle snapshot
`currentlyAvailable=0, maximumAvailable=10000, restoreRate=0` (below
threshold) and a nonempty top-level `errors` list makes `execute` raise
`ZeroDivisionError` — neither `RateLimitError` as claimed nor
`GraphQLError`. -/
theorem rate_limit_priority_cex :
    (executorExecute initExecutorState "{ x }" (none : Option Nat)
      (.parsed (⟨some ⟨some ⟨some ⟨some 0, some 10000, some 0⟩⟩⟩,
        some [⟨some "boom"⟩], none⟩ : ResponseBody Nat))).2 =
      .zeroDivisionError := by
  simp only [executorExecute, processBody, extractThrottle, checkRateLimit,
    Option.getD_some]
  norm_num [RATE_LIMIT_THRESHOLD]

/-- C3 (amended): for every parsed body that contains both a throttle
snapshot whose `currentlyAvailable` (defaulted to 0) is below
`0.20 * maximumAvailable` (defaulted to 10000) and a top-level `errors` list,
provided the snapshot's effective restore rate (`restoreRate`, or 500 when
omitted) is nonzero, `execute` raises `RateLimitError`, not `GraphQLError`:
the rate-limit policy is evaluated before the GraphQL-error check.  (With an
effective restore rate of zero, a `ZeroDivisionError` propagates instead —
still before the GraphQL-error check.) -/
theorem rate_limit_before_errors {V D : Type} (st : ExecutorPersistentState)
    (q : String) (v : Option V) (body : ResponseBody D) (ts : ThrottleStatus)
    (errs : List GQLErrorObj)
    (hts : extractThrottle body = some ts)
    (herr : body.errors = some errs)
    (hlow : ((ts.currentlyAvailable.getD 0 : Int) : ℚ) <
      RATE_LIMIT_THRESHOLD * ((ts.maximumAvailable.getD 10000 : Int) : ℚ))
    (hrr : ts.restoreRate.getD 500 ≠ 0) :
    (executorExecute st q v (.parsed body)).2 =
      .rateLimitError ts
        ((RATE_LIMIT_THRESHOLD * ((ts.maximumAvailable.getD 10000 : Int) : ℚ) -
            ((ts.currentlyAvailable.getD 0 : Int) : ℚ)) /
          ((ts.restoreRate.getD 500 : Int) : ℚ)) := by
  simp only [executorExecute, processBody, hts]
  have hck : checkRateLimit (V := V) (D := D) ts =
      some (.rateLimitError ts
        ((RATE_LIMIT_THRESHOLD * ((ts.maximumAvailable.getD 10000 : Int) : ℚ) -
            ((ts.currentlyAvailable.getD 0 : Int) : ℚ)) /
          ((ts.restoreRate.getD 500 : Int) : ℚ))) := by
    simp only [checkRateLimit]
    rw [if_pos hlow, if_neg hrr]
  rw [hck]

/-- C3 witness: a body with throttle `1000/10000/500` and a nonempty `errors`
list yields `RateLimitError` with `wait_seconds = 2`, not `GraphQLError`. -/
theorem rate_limit_before_errors_witness :
    (executorExecute initExecutorState "{ x }" (none : Option Nat)
      (.parsed (⟨some ⟨some ⟨some ⟨some 1000, some 10000, some 500⟩⟩⟩,
        some [⟨some "boom"⟩], none⟩ : ResponseBody Nat))).2 =
      .rateLimitError ⟨some 1000, some 10000, some 500⟩ 2 := by
  have h := rate_limit_before_errors (V := Nat) (D := Nat) initExecutorState
    "{ x }" none
    (⟨some ⟨some ⟨some ⟨some 1000, some 10000, some 500⟩⟩⟩,
      some [⟨some "boom"⟩], none⟩ : ResponseBody Nat)
    ⟨some 1000, some 10000, some 500⟩ [⟨some "boom"⟩] rfl rfl
    (by norm_num [RATE_LIMIT_THRESHOLD]) (by decide)
  norm_num [RATE_LIMIT_THRESHOLD] at h
  exact h

/-- C10: whenever a parsed response body contains a throttle snapshot,
`execute` stores it in `last_throttle_status` before evaluating the
rate-limit policy, so whenever the call raises `RateLimitError` the same
executor's `get_throttle_status` returns exactly the snapshot that triggered
the error. -/
theorem throttle_snapshot_stored {V D : Type} (st : ExecutorPersistentState)
    (q : String) (v : Option V) (body : ResponseBody D) (ts : ThrottleStatus)
    (hts : extractThrottle body = some ts) :
    (executorExecute st q v (.parsed body)).1.last_throttle_status = some ts ∧
    (∀ w, (executorExecute st q v (.parsed body)).2 = .rateLimitError ts w →
      executorGetThrottleStatus (executorExecute st q v (.parsed body)).1 =
        some ts) := by
  have hst : (executorExecute st q v (.parsed body)).1 =
      (⟨some ts⟩ : ExecutorPersistentState) := by
    simp only [executorExecute, processBody, hts]
    cases checkRateLimit (V := V) (D := D) ts <;> rfl
  exact ⟨by rw [hst], fun w _ => by rw [hst]; rfl⟩

/-- C10 witness: a body whose throttle snapshot `1000/10000/500` trips the
rate-limit policy leaves that snapshot readable via `get_throttle_status`. -/
theorem throttle_snapshot_stored_witness :
    (executorExecute initExecutorState "{ x }" (none : Option Nat)
      (.parsed (⟨some ⟨some ⟨some ⟨some 1000, some 10000, some 500⟩⟩⟩,
        none, some (7 : Nat)⟩ : ResponseBody Nat))).1.last_throttle_status =
      some ⟨some 1000, some 10000, some 500⟩ := by
  exact (throttle_snapshot_stored (V := Nat) (D := Nat) initExecutorState
    "{ x }" none
    (⟨some ⟨some ⟨some ⟨some 1000, some 10000, some 500⟩⟩⟩,
      none, some (7 : Nat)⟩ : ResponseBody Nat)
    ⟨some 1000, some 10000, some 500⟩ rfl).1

/-- C6 counterexample: a parsed body whose top-level `errors` key holds an
empty list makes `execute` raise `IndexError` (from the f-string subscript
`result['errors'][0]`), not a `GraphQLError` carrying that list — refuting
the claim for that body. -/
theorem graphql_error_empty_list_cex :
    (executorExecute initExecutorState "{ x }" (none : Option Nat)
      (.parsed (⟨none, some [], some (7 : Nat)⟩ : ResponseBody Nat))).2 =
      .indexError := by
  rfl

/-- C6 (amended): for every submitted query and every parsed body containing
a NONEMPTY top-level `errors` list, provided the throttle section (when
present) does not make the rate-limit check raise, `execute` raises
`GraphQLError` whose `errors` equals that list, whose `query` equals the
submitted query string, whose context carries the attempted variables, and
whose message is `GraphQL query failed: ` followed by the first error's
message (or `Unknown error` when the first error has none); with an empty
`errors` list an `IndexError` propagates instead. -/
theorem graphql_error_payload {V D : Type} (st : ExecutorPersistentState)
    (q : String) (v : Option V) (body : ResponseBody D) (e0 : GQLErrorObj)
    (rest : List GQLErrorObj)
    (herr : body.errors = some (e0 :: rest))
    (hrl : ∀ ts, extractThrottle body = some ts →
      checkRateLimit (V := V) (D := D) ts = none) :
    (executorExecute st q v (.parsed body)).2 =
      .graphQLErrorRaised
        ("GraphQL query failed: " ++ e0.message.getD "Unknown error")
        (e0 :: rest) q v := by
  cases hts : extractThrottle body with
  | none => simp [executorExecute, processBody, hts, classifyBody, herr]
  | some ts =>
      simp [executorExecute, processBody, hts, hrl ts hts, classifyBody, herr]

/-- C6 witness: the spec's own example body
`{"errors":[{"message":"Field X not found"}]}` yields a `GraphQLError` whose
errors list is that list, whose query is the submitted string, whose context
carries the attempted variables, and whose message contains the first error
message. -/
theorem graphql_error_payload_witness :
    (executorExecute initExecutorState "{ clients { bogus } }" (some 5)
      (.parsed (⟨none, some [⟨some "Field X not found"⟩], none⟩ :
        ResponseBody Nat))).2 =
      .graphQLErrorRaised "GraphQL query failed: Field X not found"
        [⟨some "Field X not found"⟩] "{ clients { bogus } }"
        (some (5 : Nat)) := by
  have h := graphql_error_payload (V := Nat) (D := Nat) initExecutorState
    "{ clients { bogus } }" (some 5)
    (⟨none, some [⟨some "Field X not found"⟩], none⟩ : ResponseBody Nat)
    ⟨some "Field X not found"⟩ [] rfl (fun ts hts => by cases hts)
  exact h

/-- Helper: one `execute_query` call never assigns the `_executor` attribute
of the facade, whatever the environment does (client.py 73–115 only ever
binds local executors). -/
theorem executeQueryModel_state_eq {V D : Type} (q : String) (v : Option V)
    (env : QueryEnv D) (st : JobberClientState) :
    (executeQueryModel (V := V) q v env st).finalState = st := by
  cases hg : env.getTokenResult with
  | error m => simp [executeQueryModel, hg]
  | ok tok1 =>
    cases ho : (executorExecute initExecutorState q v (env.net1 tok1)).2 <;>
      cases hr : env.refreshResult <;>
        simp [executeQueryModel, hg, ho, hr]

/-- C5: for every `JobberClient` and every sequence of `execute_query` calls,
`get_throttle_status()` on the facade returns none: `__init__` sets
`_executor` to `None`, `execute_query` builds fresh local executors and never
assigns `_executor`, so the attribute stays `None` forever. -/
theorem facade_throttle_always_none {V D : Type}
    (calls : List (QueryCall V D)) :
    clientGetThrottleStatus (runQueries calls jobberClientInit) = none := by
  have hrun : ∀ st : JobberClientState, runQueries calls st = st := by
    induction calls with
    | nil => intro st; rfl
    | cons c rest ih =>
      intro st
      show runQueries rest (executeQueryModel c.query c.vars c.env st).finalState = st
      rw [executeQueryModel_state_eq]
      exact ih st
  rw [hrun jobberClientInit]
  rfl

/-- C1: when the first execute attempt inside `execute_query` raises
`AuthenticationError`, the facade calls `refresh_on_401` exactly once and —
when the refresh yields a new token — makes exactly one more execute attempt
with that token, returning or propagating that second attempt's outcome
unchanged with no further retry (when the refresh itself fails, its
`AuthenticationError` propagates and no second attempt is made); and when the
first attempt ends in anything other than `AuthenticationError`, that outcome
propagates immediately with no refresh and no retry. -/
theorem facade_single_retry {V D : Type} (q : String) (v : Option V)
    (env : QueryEnv D) (st : JobberClientState) (tok1 : String)
    (hg : env.getTokenResult = .ok tok1) :
    ((∃ c, (executorExecute initExecutorState q v (env.net1 tok1)).2 =
        ExecOutcome.authenticationError (V := V) (D := D) c) →
      (executeQueryModel q v env st).refreshCalls = 1 ∧
      (∀ tok2, env.refreshResult = .ok tok2 →
        (executeQueryModel q v env st).attemptTokens = [tok1, tok2] ∧
        (executeQueryModel q v env st).result =
          .executorOutcome
            (executorExecute initExecutorState q v (env.net2 tok2)).2) ∧
      (∀ m, env.refreshResult = .error m →
        (executeQueryModel q v env st).attemptTokens = [tok1] ∧
        (executeQueryModel q v env st).result = .managerAuthError m)) ∧
    (∀ o, (executorExecute initExecutorState q v (env.net1 tok1)).2 = o →
      (∀ c, o ≠ ExecOutcome.authenticationError c) →
      (executeQueryModel q v env st).refreshCalls = 0 ∧
      (executeQueryModel q v env st).result = .executorOutcome o ∧
      (executeQueryModel q v env st).attemptTokens = [tok1]) := by
  constructor
  · rintro ⟨c, hc⟩
    refine ⟨?_, ?_, ?_⟩
    · cases hr : env.refreshResult <;>
        simp [executeQueryModel, hg, hc, hr]
    · intro tok2 hr
      constructor <;> simp [executeQueryModel, hg, hc, hr]
    · intro m hr
      constructor <;> simp [executeQueryModel, hg, hc, hr]
  · intro o ho hne
    have hnot : ∀ c, o = ExecOutcome.authenticationError c → False := fun c h =>
      hne c h
    refine ⟨?_, ?_, ?_⟩ <;>
      cases o <;> first
        | exact absurd rfl (hne _)
        | simp [executeQueryModel, hg, ho]

/-- C1 witness: with a first attempt answered 401 and a second attempt (after
a successful refresh to token `t2`) returning data `7`, the facade performs
exactly one refresh, exactly two attempts with tokens `t1` then `t2`, and
returns the second attempt's data. -/
theorem facade_single_retry_witness :
    (executeQueryModel "{ x }" (none : Option Nat)
      (⟨.ok "t1", fun _ => .status401, .ok "t2",
        fun _ => .parsed (⟨none, none, some 7⟩ : ResponseBody Nat)⟩ :
        QueryEnv Nat)
      jobberClientInit).refreshCalls = 1 ∧
    (executeQueryModel "{ x }" (none : Option Nat)
      (⟨.ok "t1", fun _ => .status401, .ok "t2",
        fun _ => .parsed (⟨none, none, some 7⟩ : ResponseBody Nat)⟩ :
        QueryEnv Nat)
      jobberClientInit).attemptTokens = ["t1", "t2"] ∧
    (executeQueryModel "{ x }" (none : Option Nat)
      (⟨.ok "t1", fun _ => .status401, .ok "t2",
        fun _ => .parsed (⟨none, none, some 7⟩ : ResponseBody Nat)⟩ :
        QueryEnv Nat)
      jobberClientInit).result = .executorOutcome (.ok 7) := by
  have h := facade_single_retry "{ x }" (none : Option Nat)
    (⟨.ok "t1", fun _ => .status401, .ok "t2",
      fun _ => .parsed (⟨none, none, some 7⟩ : ResponseBody Nat)⟩ :
      QueryEnv Nat)
    jobberClientInit "t1" rfl
  have h1 := h.1 ⟨401, rfl⟩
  have h2 := h1.2.1 "t2" rfl
  exact ⟨h1.1, h2.1, h2.2⟩

/-- C9: loading the Token State raises `ConfigurationError` whenever the
secret store returns a number of values other than three, raises
`AuthenticationError` whenever the third (expiry) value cannot be parsed as
an integer, and otherwise yields a Token State whose fields are, in order,
the returned access token, refresh token, and parsed expiry. -/
theorem load_token_state :
    (∀ lines : List String, lines.length ≠ 3 →
      ∃ m, loadFromDoppler lines = .error (.configurationError m)) ∧
    (∀ a r e : String, pyParseInt e = none →
      ∃ m, loadFromDoppler [a, r, e] = .error (.authenticationError m)) ∧
    (∀ (a r e : String) (n : Int), pyParseInt e = some n →
      loadFromDoppler [a, r, e] = .ok ⟨a, r, n⟩) := by
  refine ⟨?_, ?_, ?_⟩
  · intro lines h
    match lines with
    | [] => exact ⟨_, rfl⟩
    | [a] => exact ⟨_, rfl⟩
    | [a, b] => exact ⟨_, rfl⟩
    | [a, b, c] => simp at h
    | a :: b :: c :: d :: t => exact ⟨_, rfl⟩
  · intro a r e h
    exact ⟨"Invalid JOBBER_TOKEN_EXPIRES_AT format: " ++ e,
      by simp [loadFromDoppler, h]⟩
  · intro a r e n h
    simp [loadFromDoppler, h]

/-- C9 witness: one value only gives `ConfigurationError`; a non-numeric
expiry gives `AuthenticationError`; well-formed values give the Token State
with fields in order. -/
theorem load_token_state_witness :
    (∃ m, loadFromDoppler ["only_one"] = .error (.configurationError m)) ∧
    (∃ m, loadFromDoppler ["tokA", "tokR", "notanumber"] =
      .error (.authenticationError m)) ∧
    loadFromDoppler ["tokA", "tokR", "1700000000"] =
      .ok ⟨"tokA", "tokR", 1700000000⟩ := by
  refine ⟨load_token_state.1 ["only_one"] (by decide),
    load_token_state.2.1 "tokA" "tokR" "notanumber" (by decide),
    load_token_state.2.2 "tokA" "tokR" "1700000000" 1700000000 (by decide)⟩

/-- C4 counterexample: a successful refresh POST whose JSON body is
`{"access_token": "newA"}` — no `expires_in` — does NOT replace the Token
State with expiry `now + 3600`: `data['expires_in']` raises `KeyError`
(uncaught, since it is not a `requests.RequestException`) before
`self._token` is assigned, so the previous Token State stays in place and no
one-hour default is applied. -/
theorem refresh_no_default_expiry_cex :
    refreshTokenImpl ⟨"oldA", "oldR", 100⟩ 1000
      (.success ⟨some "newA", none, none⟩) ⟨true, true, true⟩ =
      (⟨"oldA", "oldR", 100⟩, .error (.keyError "expires_in")) ∧
    (⟨"oldA", "oldR", 100⟩ : TokenInfo) ≠ ⟨"newA", "oldR", 1000 + 3600⟩ := by
  exact ⟨rfl, by decide⟩

/-- C4 (amended): for every successful refresh POST whose response carries
`access_token` and `expires_in` and whose three store writes succeed, the
Token Manager replaces the Token State wholesale with the response's access
token, the response's refresh token (or the previous one when the response
omits it), and `expires_at = now + expires_in`; when the response omits
`expires_in` there is no one-hour default — an uncaught `KeyError` is raised
and the Token State is left unchanged. -/
theorem refresh_replaces_token_state (prev : TokenInfo) (now : Int)
    (resp : RefreshResp) (w : DopplerWrites) :
    (∀ (a : String) (ei : Int), resp.access_token = some a →
      resp.expires_in = some ei → saveToDoppler w = .ok () →
      refreshTokenImpl prev now (.success resp) w =
        (⟨a, resp.refresh_token.getD prev.refresh_token, now + ei⟩, .ok ())) ∧
    (resp.expires_in = none →
      refreshTokenImpl prev now (.success resp) w =
        (prev, .error (.keyError "expires_in"))) := by
  constructor
  · intro a ei ha hei hw
    simp [refreshTokenImpl, ha, hei, hw]
  · intro hei
    simp [refreshTokenImpl, hei]

/-- C4 witness: a full response `{access_token: newA, refresh_token: newR,
expires_in: 3600}` at `now = 1000` with all writes succeeding replaces the
state wholesale with expiry 4600; a response with only an access token leaves
the previous state and raises `KeyError`. -/
theorem refresh_replaces_token_state_witness :
    refreshTokenImpl ⟨"oldA", "oldR", 100⟩ 1000
      (.success ⟨some "newA", some "newR", some 3600⟩) ⟨true, true, true⟩ =
      (⟨"newA", "newR", 4600⟩, .ok ()) ∧
    refreshTokenImpl ⟨"oldA", "oldR", 100⟩ 1000
      (.success ⟨some "newA", some "newR", none⟩) ⟨true, true, true⟩ =
      (⟨"oldA", "oldR", 100⟩, .error (.keyError "expires_in")) := by
  exact ⟨(refresh_replaces_token_state ⟨"oldA", "oldR", 100⟩ 1000
      ⟨some "newA", some "newR", some 3600⟩ ⟨true, true, true⟩).1
      "newA" 3600 rfl rfl rfl,
    (refresh_replaces_token_state ⟨"oldA", "oldR", 100⟩ 1000
      ⟨some "newA", some "newR", none⟩ ⟨true, true, true⟩).2 rfl⟩

/-- C8: when the refresh POST succeeds (with its required keys present) but
any of the three secret-store writes fails, the refresh raises
`AuthenticationError` and the in-memory Token State remains the newly minted
token — it is not rolled back to the previous Token State. -/
theorem save_failure_keeps_new_token (prev : TokenInfo) (now : Int)
    (resp : RefreshResp) (w : DopplerWrites) (a : String) (ei : Int)
    (ha : resp.access_token = some a) (hei : resp.expires_in = some ei)
    (hw : w.accessOk = false ∨ w.refreshOk = false ∨ w.expiresOk = false) :
    ∃ m, refreshTokenImpl prev now (.success resp) w =
      (⟨a, resp.refresh_token.getD prev.refresh_token, now + ei⟩,
        .error (.authenticationError m)) := by
  rcases w with ⟨wa, wr, we⟩
  cases wa <;> cases wr <;> cases we <;>
    simp_all [refreshTokenImpl, saveToDoppler, ha, hei]

/-- C8 witness: with the second write failing, the outcome is
`AuthenticationError` and the state is the new token, not the old one. -/
theorem save_failure_keeps_new_token_witness :
    ∃ m, refreshTokenImpl ⟨"oldA", "oldR", 100⟩ 1000
      (.success ⟨some "newA", some "newR", some 3600⟩) ⟨true, false, true⟩ =
      (⟨"newA", "newR", 4600⟩, .error (.authenticationError m)) := by
  exact save_failure_keeps_new_token ⟨"oldA", "oldR", 100⟩ 1000
    ⟨some "newA", some "newR", some 3600⟩ ⟨true, false, true⟩ "newA" 3600
    rfl rfl (Or.inr (Or.inl rfl))
